import Mathlib

/-!
Formal model of the health-tracker backend (user authentication, workout/meal
CRUD and statistics computation).  The document store (mongoose) is modelled
as an association list from identifier strings to records, the bcrypt hashing
library as an abstract hash scheme, the JWT library as a record of the signed
fields, and the external AI completion service as an explicit outcome value
(either a thrown error or a response with an optional message content).
All definitions follow the TypeScript source files of the repository.
-/

namespace HealthTracker

/-! ## Data model (src/types/types.ts)

Exercise entries of a workout: `{exercise, sets, reps, weight}`.  `sets` and
`reps` are integers; `weight` is a number that may be absent in a stored
document (the service guards every use with `weight || 0`), so it is modelled
as an optional integer. -/

structure Exercise where
  exercise : String
  sets : Nat
  reps : Nat
  weight : Option Int
deriving DecidableEq

/-- A workout record (src/types/types.ts `IWorkout`, sans `_id`, which is the
association-list key in the store model). -/
structure Workout where
  userId : String
  name : String
  description : String
  date : String
  exercises : List Exercise
deriving DecidableEq, Inhabited

/-- A food entry of a meal: `{food, quantity, calories}`.  The service guards
`calories` with `food.calories || 0`, so it is modelled as optional. -/
structure Food where
  food : String
  quantity : Int
  calories : Option Int
deriving DecidableEq

/-- A meal record (src/types/types.ts `IMeal`, sans `_id`). -/
structure Meal where
  userId : String
  name : String
  description : String
  date : String
  foods : List Food
deriving DecidableEq, Inhabited

/-- Models mongoose `Model.findById`: look up a record by its identifier in
the store (an association list keyed by `_id`). -/
def findById (db : List (String × α)) (id : String) : Option α :=
  (db.find? (fun kv => kv.1 == id)).map Prod.snd

/-! ## External AI completion service (openai client)

The call `openai.chat.completions.create(...)` either throws (network error,
timeout, malformed response object, empty `choices`) or yields a message
content that is a string or `null`. -/

/-- Outcome of one call to the external AI completion service. -/
inductive AIOutcome where
  | throws : AIOutcome
  | responds (content : Option String) : AIOutcome

/-- The AI call as a fallible computation: `.error` models a thrown
exception, `.ok` models a well-formed response with its message content. -/
def aiCompletionCall (ai : AIOutcome) : Except String (Option String) :=
  match ai with
  | .throws => .error "AI service failure"
  | .responds content => .ok content

/-- First maximal run of decimal digits in a character list (models the
regular-expression match for one-or-more digits used on the AI response). -/
def firstDigitRunAux : List Char → Option (List Char)
  | [] => none
  | c :: rest =>
      if c.isDigit then some (c :: rest.takeWhile (fun d => d.isDigit))
      else firstDigitRunAux rest

/-- Numeric value of a list of decimal digit characters (models `parseInt`
applied to a digit-only string). -/
def digitsVal (ds : List Char) : Nat :=
  ds.foldl (fun acc c => acc * 10 + (c.toNat - 48)) 0

/-- Models `parseInt(aiResponse?.match(<digits>)?.[0] || "0")`: a `null`
content or a content without any digit yields 0; otherwise the value of the
first digit run. -/
def extractFirstInt (content : Option String) : Nat :=
  match content with
  | none => 0
  | some s =>
      match firstDigitRunAux s.data with
      | none => 0
      | some ds => digitsVal ds

/-! ## Workout statistics (src/services/workoutService.ts) -/

/-- Result object of `calculateWorkoutStats`. -/
structure WorkoutStats where
  workoutId : String
  date : String
  totalExercises : Nat
  totalSets : Nat
  totalReps : Nat
  totalWeight : Int
  caloriesBurned : Nat
  intensity : String
  averageWeightPerExercise : Int

/-- Models JavaScript `Math.round (a / n)` for an integer numerator and a
positive integer denominator.  `Math.round x` is the floor of `x + 1/2`
(ties round toward positive infinity), and for `n > 0` the floor of
`a / n + 1/2` equals the floor division `(2 * a + n) / (2 * n)`; integer `/`
on `Int` is floor division for a positive divisor.  The bridge lemma
`mathRoundDiv_eq_floor` below proves this identity against the rational
floor form. -/
def mathRoundDiv (a : Int) (n : Nat) : Int :=
  (2 * a + n) / (2 * (n : Int))

/-- Body of `calculateWorkoutStats` once the workout was found, translated
line by line from src/services/workoutService.ts: the deterministic
aggregates, the `try`/`catch`-guarded AI estimate with default 0, the
intensity classification and the rounded average weight per exercise. -/
def workoutStatsOf (workoutId : String) (workout : Workout) (ai : AIOutcome) :
    WorkoutStats :=
  let exercises := workout.exercises
  let totalSets := exercises.foldl (fun total e => total + e.sets) 0
  let totalReps := exercises.foldl (fun total e => total + e.sets * e.reps) 0
  let totalWeight := exercises.foldl
    (fun total e => total + (e.weight.getD 0) * (e.sets : Int) * (e.reps : Int)) 0
  let caloriesBurned : Nat :=
    match aiCompletionCall ai with
    | .ok content =>
        let extractedCalories := extractFirstInt content
        if 0 < extractedCalories then extractedCalories else 0
    | .error _ => 0
  let intensity : String :=
    if totalWeight > 5000 then "High"
    else if totalWeight > 2000 then "Medium"
    else "Low"
  { workoutId := workoutId
    date := workout.date
    totalExercises := exercises.length
    totalSets := totalSets
    totalReps := totalReps
    totalWeight := totalWeight
    caloriesBurned := caloriesBurned
    intensity := intensity
    averageWeightPerExercise :=
      if exercises.length > 0 then mathRoundDiv totalWeight exercises.length
      else 0 }

/-- `calculateWorkoutStats` (src/services/workoutService.ts): fetch the
workout by id, return `none` if absent, otherwise compute the statistics.
The return type is `Except`, the error monad of the embedding; the AI call
is the only fallible step and it is guarded inside `workoutStatsOf`. -/
def calculateWorkoutStats (db : List (String × Workout)) (workoutId : String)
    (ai : AIOutcome) : Except String (Option WorkoutStats) := do
  match findById db workoutId with
  | none => return none
  | some workout => return some (workoutStatsOf workoutId workout ai)

/-! ## Meal statistics (src/types/types.ts, mealService section) -/

/-- Result object of `calculateMealStats`. -/
structure MealStats where
  mealId : String
  date : String
  totalCalories : Int
  calories : Nat

/-- Body of `calculateMealStats` once the meal was found, translated from
the mealService section of src/types/types.ts: the deterministic total
calories, and the `try`/`catch`-guarded AI estimate whose default value is
`0` (`let calories = 0`), kept whenever the AI call throws or its extracted
value is not positive. -/
def mealStatsOf (mealId : String) (meal : Meal) (ai : AIOutcome) : MealStats :=
  let foods := meal.foods
  let totalCalories := foods.foldl (fun total food => total + food.calories.getD 0) 0
  let calories : Nat :=
    match aiCompletionCall ai with
    | .ok content =>
        let extractedCalories := extractFirstInt content
        if 0 < extractedCalories then extractedCalories else 0
    | .error _ => 0
  { mealId := mealId
    date := meal.date
    totalCalories := totalCalories
    calories := calories }

/-- `calculateMealStats`: fetch the meal by id, return `none` if absent,
otherwise compute the statistics. -/
def calculateMealStats (db : List (String × Meal)) (mealId : String)
    (ai : AIOutcome) : Except String (Option MealStats) := do
  match findById db mealId with
  | none => return none
  | some meal => return some (mealStatsOf mealId meal ai)

/-! ## User model and services (src/models/schema/user.ts, src/services/userService.ts)

bcrypt is modelled as an abstract hash scheme: a deterministic hash function
(salting folded in) and a comparison predicate, together with the library's
contract that comparing a password against its own hash succeeds. -/

/-- Abstract model of the bcrypt hashing library. -/
structure HashScheme where
  hash : String → String
  compare : String → String → Bool
  compare_hash : ∀ p, compare p (hash p) = true

/-- A stored user document (src/types/types.ts `IUser`). -/
structure StoredUser where
  _id : String
  username : String
  email : String
  password : String
deriving DecidableEq

/-- The redacted user view returned by the user services: id, username and
email only — the structure has no password field. -/
structure UserView where
  _id : String
  username : String
  email : String

/-- Model of the signed JWT issued by `jwt.sign`: the embedded claims and
the validity window. -/
structure AuthToken where
  userId : String
  email : String
  expiresIn : String

/-- The `{user, token}` result shape of both user services. -/
structure AuthResult where
  user : UserView
  token : AuthToken

/-- `UserSchema.statics.findUserByEmail`: `findOne({email})`, the first
stored user whose email equals the argument. -/
def findUserByEmail (db : List StoredUser) (email : String) : Option StoredUser :=
  db.find? (fun u => u.email == email)

/-- `authenticateUser` (src/services/userService.ts): look up by email,
throw `"Invalid credentials"` if absent; compare the password against the
stored hash, throw the same `"Invalid credentials"` on mismatch; otherwise
return the redacted user view and a signed token. -/
def authenticateUser (hs : HashScheme) (db : List StoredUser)
    (email password : String) : Except String AuthResult :=
  match findUserByEmail db email with
  | none => .error "Invalid credentials"
  | some user =>
      if hs.compare password user.password then
        .ok { user := { _id := user._id, username := user.username, email := user.email }
              token := { userId := user._id, email := user.email, expiresIn := "24h" } }
      else .error "Invalid credentials"

/-- `registerUser` (src/services/userService.ts): reject when any field is
empty (JavaScript falsiness of the missing/empty string); reject a
registered email; otherwise hash the password, append the created user to
the store and return the view and token together with the updated store.
`newId` stands for the store-assigned identifier of the created document. -/
def registerUser (hs : HashScheme) (db : List StoredUser)
    (newId username email password : String) :
    Except String (AuthResult × List StoredUser) :=
  if username = "" ∨ email = "" ∨ password = "" then
    .error "validation failed: All fields are required"
  else
    match findUserByEmail db email with
    | some _ => .error "validation failed: User with this email already exists"
    | none =>
        let hashedPassword := hs.hash password
        let newUser : StoredUser :=
          { _id := newId, username := username, email := email, password := hashedPassword }
        .ok ({ user := { _id := newId, username := username, email := email }
               token := { userId := newId, email := email, expiresIn := "24h" } },
             db ++ [newUser])

/-- JavaScript `String.prototype.includes`: `sub` occurs contiguously in
`s`. -/
def jsIncludes (s sub : String) : Bool :=
  (List.range (s.data.length + 1)).any (fun i => sub.data.isPrefixOf (s.data.drop i))

/-- `login` controller error mapping (src/controllers/userController.ts):
the HTTP status of the response. -/
def login (hs : HashScheme) (db : List StoredUser) (email password : String) : Nat :=
  match authenticateUser hs db email password with
  | .ok _ => 200
  | .error msg => if msg == "Invalid credentials" then 401 else 500

/-- `signup` controller error mapping (src/controllers/userController.ts):
200 on success; for error messages containing `"validation"`, 409 when the
message contains `"User with this email already exists"` and 400 otherwise;
500 for anything else. -/
def signup (hs : HashScheme) (db : List StoredUser)
    (newId username email password : String) : Nat :=
  match registerUser hs db newId username email password with
  | .ok _ => 200
  | .error msg =>
      if jsIncludes msg "validation" then
        if jsIncludes msg "User with this email already exists" then 409 else 400
      else 500

/-! ## Serialization transforms (`toJSON`)

A serialized document is modelled as a list of key/value pairs.  The user
schema transform stringifies `_id`, deletes `__v` and deletes `password`. -/

/-- Models `delete ret[key]` on a plain serialized object. -/
def jsonDelete (obj : List (String × String)) (key : String) : List (String × String) :=
  obj.filter (fun kv => kv.1 ≠ key)

/-- The raw fields of a stored user document before the `toJSON` transform
(`version` is the mongoose `__v` revision counter). -/
def userDocFields (u : StoredUser) (version : Nat) : List (String × String) :=
  [("_id", u._id), ("username", u.username), ("email", u.email),
   ("password", u.password), ("__v", toString version)]

/-- `UserSchema toJSON` transform (src/models/schema/user.ts): delete `__v`
and delete `password`. -/
def userToJSON (u : StoredUser) (version : Nat) : List (String × String) :=
  jsonDelete (jsonDelete (userDocFields u version) "__v") "password"

/-- Serialization of the redacted user view that the user services place in
their responses: exactly the three constructed fields. -/
def userViewToJSON (v : UserView) : List (String × String) :=
  [("_id", v._id), ("username", v.username), ("email", v.email)]

/-! ## Deletion (src/models/schema/workouts.ts, MealSchema statics)

`findByIdAndDelete` removes the document with the given identifier and
returns it, or returns `null` when none matched; it does not throw for a
missing identifier.  The model returns the removed document (if any)
together with the store after removal. -/

/-- Models mongoose `findByIdAndDelete` on the association-list store. -/
def findByIdAndDelete (db : List (String × α)) (id : String) :
    Option α × List (String × α) :=
  match db with
  | [] => (none, [])
  | (k, v) :: rest =>
      if k == id then (some v, rest)
      else
        let r := findByIdAndDelete rest id
        (r.1, (k, v) :: r.2)

/-- `WorkoutSchema.statics.deleteWorkout`: `result !== null` — true iff a
document was removed.  Returns the boolean together with the store after
the call. -/
def deleteWorkout (db : List (String × Workout)) (workoutId : String) :
    Bool × List (String × Workout) :=
  let result := findByIdAndDelete db workoutId
  (result.1.isSome, result.2)

/-- `MealSchema.statics.deleteMeal`: `!!result` — true iff a document was
removed. -/
def deleteMeal (db : List (String × Meal)) (mealId : String) :
    Bool × List (String × Meal) :=
  let result := findByIdAndDelete db mealId
  (result.1.isSome, result.2)

/-! ## Meal listing route (src/routes/index.ts, src/controllers/mealController.ts) -/

/-- `MealSchema.statics.findMealsByUser`: `find({userId})`. -/
def findMealsByUser (db : List (String × Meal)) (userId : String) : List Meal :=
  ((db.map Prod.snd).filter (fun m => m.userId == userId))

/-- Splits a character list at every slash (auxiliary for the route-pattern
parameter extraction). -/
def splitSegsAux : List Char → List Char → List (List Char)
  | [], acc => [acc.reverse]
  | c :: rest, acc =>
      if c = '/' then acc.reverse :: splitSegsAux rest []
      else splitSegsAux rest (c :: acc)

/-- The path-parameter names an Express route pattern declares: the
segments that start with a colon, colon stripped.  Express populates
`req.params` with exactly these keys for a request dispatched to the
route. -/
def routeParamNames (pattern : String) : List String :=
  (splitSegsAux pattern.data []).filterMap
    (fun seg =>
      match seg with
      | ':' :: name => some (String.mk name)
      | _ => none)

/-- `getAllMeals` handler (src/controllers/mealController.ts): reads
`req.params.useId`; a missing or empty (falsy) value is answered with 401
and no meals; otherwise the user's meals are returned with 200.  The result
is the HTTP status together with the returned meal list, if any. -/
def getAllMeals (db : List (String × Meal)) (params : List (String × String)) :
    Nat × Option (List Meal) :=
  match params.lookup "useId" with
  | none => (401, none)
  | some v => if v = "" then (401, none) else (200, some (findMealsByUser db v))

/-! ## Specification-side aggregates and helper lemmas -/

/-- The total weight-volume of a workout written as a sum over the mapped
exercise list (the specification's "sum of weight×sets×reps"). -/
def specTotalWeight (w : Workout) : Int :=
  (w.exercises.map (fun e => (e.weight.getD 0) * (e.sets : Int) * (e.reps : Int))).sum

/-- A left fold accumulating `+ g x` computes the initial value plus the sum
of the mapped list. -/
theorem foldl_add_map [AddMonoid M] (g : α → M) (l : List α) (a : M) :
    l.foldl (fun t x => t + g x) a = a + (l.map g).sum := by
  induction l generalizing a with
  | nil => simp
  | cons h t ih => simp [List.foldl_cons, ih, add_assoc]

/-- The code's fold for the total weight-volume equals the specification-side
mapped sum. -/
theorem totalWeight_foldl_eq (w : Workout) :
    w.exercises.foldl
      (fun total e => total + (e.weight.getD 0) * (e.sets : Int) * (e.reps : Int)) 0 =
      specTotalWeight w := by
  simpa [specTotalWeight] using
    foldl_add_map (fun e : Exercise => (e.weight.getD 0) * (e.sets : Int) * (e.reps : Int))
      w.exercises 0

/-- `mathRoundDiv` agrees with the rational-arithmetic reading of
`Math.round (a / n)`, the floor of `a / n + 1/2`, whenever `n > 0`. -/
theorem mathRoundDiv_eq_floor (a : Int) (n : Nat) (hn : 0 < n) :
    mathRoundDiv a n = ⌊(a : Rat) / (n : Rat) + 1 / 2⌋ := by
  have hn0 : (n : Rat) ≠ 0 := Nat.cast_ne_zero.mpr hn.ne'
  have key : (a : Rat) / (n : Rat) + 1 / 2 =
      ((2 * a + (n : Int) : Int) : Rat) / ((2 * n : Nat) : Rat) := by
    push_cast
    field_simp
    ring
  rw [key, Rat.floor_intCast_div_natCast, mathRoundDiv]
  congr 1

/-- The removed-document part of `findByIdAndDelete` is non-null exactly
when the identifier occurs among the store's keys. -/
theorem findByIdAndDelete_isSome (db : List (String × α)) (id : String) :
    (findByIdAndDelete db id).1.isSome = true ↔ id ∈ db.map Prod.fst := by
  induction db with
  | nil => simp [findByIdAndDelete]
  | cons kv rest ih =>
      obtain ⟨k, v⟩ := kv
      by_cases hk : k = id
      · simp [findByIdAndDelete, hk]
      · simp [findByIdAndDelete, hk, Ne.symm hk, ih]

/-- The keys after `findByIdAndDelete` are the original keys with the first
occurrence of the identifier erased. -/
theorem findByIdAndDelete_keys (db : List (String × α)) (id : String) :
    (findByIdAndDelete db id).2.map Prod.fst = (db.map Prod.fst).erase id := by
  induction db with
  | nil => simp [findByIdAndDelete]
  | cons kv rest ih =>
      obtain ⟨k, v⟩ := kv
      by_cases hk : k = id
      · simp [findByIdAndDelete, hk, List.erase_cons]
      · simp [findByIdAndDelete, hk, List.erase_cons, ih]

/-- Under the store invariant that identifiers are unique, the identifier no
longer occurs among the keys after `findByIdAndDelete`. -/
theorem findByIdAndDelete_not_mem (db : List (String × α)) (id : String)
    (hnd : (db.map Prod.fst).Nodup) :
    id ∉ (findByIdAndDelete db id).2.map Prod.fst := by
  rw [findByIdAndDelete_keys]
  exact hnd.not_mem_erase

/-! ## Concrete sample data used by the theorems below -/

/-- The worked example of the specification: exercises
`[{sets:3,reps:10,weight:100},{sets:2,reps:8,weight:50}]`. -/
def exampleWorkout : Workout :=
  { userId := "u1", name := "Leg Day", description := "", date := "2024-01-01",
    exercises :=
      [{ exercise := "squat", sets := 3, reps := 10, weight := some 100 },
       { exercise := "bench", sets := 2, reps := 8, weight := some 50 }] }

/-- A workout with no exercises. -/
def emptyWorkout : Workout :=
  { userId := "u1", name := "Rest Day", description := "", date := "2024-01-03",
    exercises := [] }

/-- A workout whose total weight-volume (3801) is odd, so the average over
its two exercises is not an integer. -/
def oddWeightWorkout : Workout :=
  { userId := "u1", name := "Odd Day", description := "", date := "2024-01-02",
    exercises :=
      [{ exercise := "a", sets := 1, reps := 1, weight := some 1900 },
       { exercise := "b", sets := 1, reps := 1, weight := some 1901 }] }

/-- A meal with a single 100-calorie food. -/
def riceMeal : Meal :=
  { userId := "u1", name := "lunch", description := "", date := "2024-01-01",
    foods := [{ food := "rice", quantity := 1, calories := some 100 }] }

/-- A one-workout store. -/
def sampleWorkoutDB : List (String × Workout) := [("w1", exampleWorkout)]

/-- A one-meal store. -/
def sampleMealDB : List (String × Meal) := [("m1", riceMeal)]

/-- A concrete registered user whose password hash was produced by
`prefixHash` from the password `"pw"`. -/
def sampleUser : StoredUser :=
  { _id := "u1", username := "bob", email := "a@x.com", password := "hpw" }

/-- A one-user store. -/
def sampleUserDB : List StoredUser := [sampleUser]

/-- A concrete hash scheme for witnesses: hashing prepends `"h"`, comparison
checks the hash is the prepended password. -/
def prefixHash : HashScheme where
  hash p := "h" ++ p
  compare p h := h == "h" ++ p
  compare_hash p := by simp

/-! ## Claim theorems -/

/-- Claim C1 (code bug evidence): on an AI enrichment failure,
`calculateMealStats` does not fall back to the deterministic total calories
— it keeps the default estimate 0.  For the meal whose foods sum to 100
deterministic calories and a throwing AI call, the call succeeds (failure
is not propagated) but the returned `calories` estimate is 0 while
`totalCalories` is 100. -/
theorem mealStats_ai_failure_estimate_is_zero_not_total :
    calculateMealStats sampleMealDB "m1" AIOutcome.throws =
      .ok (some (mealStatsOf "m1" riceMeal AIOutcome.throws)) ∧
    (mealStatsOf "m1" riceMeal AIOutcome.throws).totalCalories = 100 ∧
    (mealStatsOf "m1" riceMeal AIOutcome.throws).calories = 0 :=
  ⟨rfl, rfl, rfl⟩

/-- Claim C2: on the workout with exercises
`[{sets:3,reps:10,weight:100},{sets:2,reps:8,weight:50}]`,
`calculateWorkoutStats` yields `totalSets = 5`, `totalReps = 46`,
`totalWeight = 3800`, `intensity = "Medium"` and
`averageWeightPerExercise = 1900`, whatever the AI call outcome. -/
theorem workoutStats_spec_example (ai : AIOutcome) :
    calculateWorkoutStats sampleWorkoutDB "w1" ai =
      .ok (some (workoutStatsOf "w1" exampleWorkout ai)) ∧
    (workoutStatsOf "w1" exampleWorkout ai).totalSets = 5 ∧
    (workoutStatsOf "w1" exampleWorkout ai).totalReps = 46 ∧
    (workoutStatsOf "w1" exampleWorkout ai).totalWeight = 3800 ∧
    (workoutStatsOf "w1" exampleWorkout ai).intensity = "Medium" ∧
    (workoutStatsOf "w1" exampleWorkout ai).averageWeightPerExercise = 1900 := by
  cases ai <;> exact ⟨rfl, rfl, rfl, rfl, rfl, rfl⟩

/-- Claim C3: the statistics computations never produce an error (the AI
call is guarded), and whenever the record exists the result carries a
statistics object — whose calorie field (`caloriesBurned` for workouts,
`calories` for meals) is a number by construction. -/
theorem stats_never_raise (wdb : List (String × Workout)) (mdb : List (String × Meal))
    (wid mid : String) (ai ai2 : AIOutcome) :
    (∃ r, calculateWorkoutStats wdb wid ai = .ok r) ∧
    (∃ r, calculateMealStats mdb mid ai2 = .ok r) ∧
    ((findById wdb wid).isSome = true →
      ∃ s, calculateWorkoutStats wdb wid ai = .ok (some s) ∧
        s.caloriesBurned = (workoutStatsOf wid ((findById wdb wid).getD default) ai).caloriesBurned) ∧
    ((findById mdb mid).isSome = true →
      ∃ s, calculateMealStats mdb mid ai2 = .ok (some s) ∧
        s.calories = (mealStatsOf mid ((findById mdb mid).getD default) ai2).calories) := by
  refine ⟨?_, ?_, ?_, ?_⟩
  · cases h : findById wdb wid <;> simp [calculateWorkoutStats, h, pure, Except.pure]
  · cases h : findById mdb mid <;> simp [calculateMealStats, h, pure, Except.pure]
  · intro hs
    obtain ⟨w, hw⟩ := Option.isSome_iff_exists.mp hs
    exact ⟨workoutStatsOf wid w ai,
      by simp [calculateWorkoutStats, hw, pure, Except.pure], by simp [hw]⟩
  · intro hs
    obtain ⟨m, hm⟩ := Option.isSome_iff_exists.mp hs
    exact ⟨mealStatsOf mid m ai2,
      by simp [calculateMealStats, hm, pure, Except.pure], by simp [hm]⟩

/-- Witness for claim C3 at concrete stores where the records exist and the
AI call throws. -/
theorem stats_never_raise_witness :
    (∃ s, calculateWorkoutStats sampleWorkoutDB "w1" AIOutcome.throws = .ok (some s) ∧
      s.caloriesBurned =
        (workoutStatsOf "w1" ((findById sampleWorkoutDB "w1").getD default) AIOutcome.throws).caloriesBurned) ∧
    (∃ s, calculateMealStats sampleMealDB "m1" AIOutcome.throws = .ok (some s) ∧
      s.calories =
        (mealStatsOf "m1" ((findById sampleMealDB "m1").getD default) AIOutcome.throws).calories) :=
  ⟨(stats_never_raise sampleWorkoutDB sampleMealDB "w1" "m1" AIOutcome.throws AIOutcome.throws).2.2.1 rfl,
   (stats_never_raise sampleWorkoutDB sampleMealDB "w1" "m1" AIOutcome.throws AIOutcome.throws).2.2.2 rfl⟩

/-- Claim C4 (counterexample): a registration whose email is already
registered but whose username is empty fails the field-presence validation
first, so the controller answers 400, not 409 — the claim's "regardless of
the username and password values" is false. -/
theorem signup_duplicate_email_empty_username_is_400 :
    registerUser prefixHash sampleUserDB "u2" "" "a@x.com" "pw" =
      .error "validation failed: All fields are required" ∧
    signup prefixHash sampleUserDB "u2" "" "a@x.com" "pw" = 400 ∧
    (400 : Nat) ≠ 409 :=
  ⟨rfl, by decide, by decide⟩

/-- Claim C4 (amended): for every registration input with non-empty
username, email and password whose email is already registered,
`registerUser` fails with the duplicate-email error and the `signup`
controller answers 409, regardless of the username and password values. -/
theorem signup_duplicate_email_conflict (hs : HashScheme) (db : List StoredUser)
    (newId username email password : String)
    (hu : username ≠ "") (he : email ≠ "") (hp : password ≠ "")
    (hdup : ∃ u ∈ db, u.email = email) :
    registerUser hs db newId username email password =
      .error "validation failed: User with this email already exists" ∧
    signup hs db newId username email password = 409 := by
  have hfind : (findUserByEmail db email).isSome = true := by
    rw [findUserByEmail, List.find?_isSome]
    obtain ⟨u, hmem, hemail⟩ := hdup
    exact ⟨u, hmem, by simp [hemail]⟩
  obtain ⟨u, hu'⟩ := Option.isSome_iff_exists.mp hfind
  have hreg : registerUser hs db newId username email password =
      .error "validation failed: User with this email already exists" := by
    simp [registerUser, hu, he, hp, hu']
  refine ⟨hreg, ?_⟩
  rw [signup, hreg]
  have h1 : jsIncludes "validation failed: User with this email already exists"
      "validation" = true := by decide
  have h2 : jsIncludes "validation failed: User with this email already exists"
      "User with this email already exists" = true := by decide
  simp [h1, h2]

/-- Witness for the amended claim C4 at a concrete store and input. -/
theorem signup_duplicate_email_conflict_witness :
    registerUser prefixHash sampleUserDB "u2" "alice" "a@x.com" "pw" =
      .error "validation failed: User with this email already exists" ∧
    signup prefixHash sampleUserDB "u2" "alice" "a@x.com" "pw" = 409 :=
  signup_duplicate_email_conflict prefixHash sampleUserDB "u2" "alice" "a@x.com" "pw"
    (by decide) (by decide) (by decide) ⟨sampleUser, by simp [sampleUserDB], rfl⟩

/-- Claim C5: an authentication attempt with an unknown email and one with
a known email but non-matching password produce the very same error value
`"Invalid credentials"` (mapped to 401 by the `login` controller), so the
response does not reveal which factor was wrong. -/
theorem auth_failure_uniform (hs : HashScheme) (db : List StoredUser)
    (email password : String) :
    (findUserByEmail db email = none →
      authenticateUser hs db email password = .error "Invalid credentials" ∧
      login hs db email password = 401) ∧
    (∀ u, findUserByEmail db email = some u →
      hs.compare password u.password = false →
      authenticateUser hs db email password = .error "Invalid credentials" ∧
      login hs db email password = 401) := by
  constructor
  · intro h
    have ha : authenticateUser hs db email password = .error "Invalid credentials" := by
      simp [authenticateUser, h]
    exact ⟨ha, by simp [login, ha]⟩
  · intro u hu hc
    have ha : authenticateUser hs db email password = .error "Invalid credentials" := by
      simp [authenticateUser, hu, hc]
    exact ⟨ha, by simp [login, ha]⟩

/-- Witness for claim C5: both failure modes at a concrete store produce
the identical error and status 401. -/
theorem auth_failure_uniform_witness :
    (authenticateUser prefixHash sampleUserDB "nobody@x.com" "pw" =
        .error "Invalid credentials" ∧
      login prefixHash sampleUserDB "nobody@x.com" "pw" = 401) ∧
    (authenticateUser prefixHash sampleUserDB "a@x.com" "wrong" =
        .error "Invalid credentials" ∧
      login prefixHash sampleUserDB "a@x.com" "wrong" = 401) :=
  ⟨(auth_failure_uniform prefixHash sampleUserDB "nobody@x.com" "pw").1 rfl,
   (auth_failure_uniform prefixHash sampleUserDB "a@x.com" "wrong").2 sampleUser rfl rfl⟩

/-- Claim C6: a valid registration with a fresh email succeeds with a token
and a user view whose serialization has no password key; authenticating
with the same credentials against the updated store succeeds; and no
serialized user document ever carries a password key. -/
theorem register_then_authenticate (hs : HashScheme) (db : List StoredUser)
    (newId username email password : String)
    (hu : username ≠ "") (he : email ≠ "") (hp : password ≠ "")
    (hfresh : findUserByEmail db email = none) :
    ∃ result db2,
      registerUser hs db newId username email password = .ok (result, db2) ∧
      "password" ∉ (userViewToJSON result.user).map Prod.fst ∧
      (∃ result2, authenticateUser hs db2 email password = .ok result2) ∧
      ∀ u version, "password" ∉ (userToJSON u version).map Prod.fst := by
  have hreg : registerUser hs db newId username email password =
      .ok ({ user := { _id := newId, username := username, email := email }
             token := { userId := newId, email := email, expiresIn := "24h" } },
           db ++ [{ _id := newId, username := username, email := email,
                    password := hs.hash password }]) := by
    simp [registerUser, hu, he, hp, hfresh]
  have hfind : findUserByEmail
      (db ++ [{ _id := newId, username := username, email := email,
                password := hs.hash password }]) email =
      some { _id := newId, username := username, email := email,
             password := hs.hash password } := by
    rw [findUserByEmail, List.find?_append]
    rw [findUserByEmail] at hfresh
    rw [hfresh]
    simp
  refine ⟨{ user := { _id := newId, username := username, email := email }
            token := { userId := newId, email := email, expiresIn := "24h" } },
          db ++ [{ _id := newId, username := username, email := email,
                   password := hs.hash password }],
          hreg, by simp [userViewToJSON], ?_, ?_⟩
  · refine ⟨{ user := { _id := newId, username := username, email := email }
              token := { userId := newId, email := email, expiresIn := "24h" } }, ?_⟩
    rw [authenticateUser, hfind]
    simp [hs.compare_hash]
  · intro u version
    simp [userToJSON, jsonDelete, userDocFields]

/-- Witness for claim C6: registering a fresh user in the empty store and
logging back in. -/
theorem register_then_authenticate_witness :
    ∃ result db2,
      registerUser prefixHash [] "u9" "alice" "al@x.com" "pw" = .ok (result, db2) ∧
      "password" ∉ (userViewToJSON result.user).map Prod.fst ∧
      (∃ result2, authenticateUser prefixHash db2 "al@x.com" "pw" = .ok result2) ∧
      ∀ u version, "password" ∉ (userToJSON u version).map Prod.fst :=
  register_then_authenticate prefixHash [] "u9" "alice" "al@x.com" "pw"
    (by decide) (by decide) (by decide) rfl

/-- Claim C7: under the store invariant of unique identifiers, deletion of
a workout or meal returns true exactly when a record with the identifier
existed (and was removed — the remaining keys are the old keys with that
identifier erased), returns false when none matched, and a second deletion
of the same identifier reports not-found. -/
theorem delete_true_iff_removed_and_idempotent
    (wdb : List (String × Workout)) (mdb : List (String × Meal)) (id : String)
    (hw : (wdb.map Prod.fst).Nodup) (hm : (mdb.map Prod.fst).Nodup) :
    ((deleteWorkout wdb id).1 = true ↔ id ∈ wdb.map Prod.fst) ∧
    ((deleteWorkout wdb id).2.map Prod.fst = (wdb.map Prod.fst).erase id) ∧
    ((deleteWorkout (deleteWorkout wdb id).2 id).1 = false) ∧
    ((deleteMeal mdb id).1 = true ↔ id ∈ mdb.map Prod.fst) ∧
    ((deleteMeal mdb id).2.map Prod.fst = (mdb.map Prod.fst).erase id) ∧
    ((deleteMeal (deleteMeal mdb id).2 id).1 = false) := by
  refine ⟨findByIdAndDelete_isSome wdb id, findByIdAndDelete_keys wdb id, ?_,
          findByIdAndDelete_isSome mdb id, findByIdAndDelete_keys mdb id, ?_⟩
  · have h2 := findByIdAndDelete_not_mem wdb id hw
    have h3 : ¬ ((findByIdAndDelete (findByIdAndDelete wdb id).2 id).1.isSome = true) := by
      rw [findByIdAndDelete_isSome]
      exact h2
    exact Bool.not_eq_true _ ▸ h3
  · have h2 := findByIdAndDelete_not_mem mdb id hm
    have h3 : ¬ ((findByIdAndDelete (findByIdAndDelete mdb id).2 id).1.isSome = true) := by
      rw [findByIdAndDelete_isSome]
      exact h2
    exact Bool.not_eq_true _ ▸ h3

/-- Witness for claim C7 at concrete one-record stores. -/
theorem delete_true_iff_removed_and_idempotent_witness :
    ((deleteWorkout sampleWorkoutDB "w1").1 = true ↔
      "w1" ∈ sampleWorkoutDB.map Prod.fst) ∧
    ((deleteWorkout sampleWorkoutDB "w1").2.map Prod.fst =
      (sampleWorkoutDB.map Prod.fst).erase "w1") ∧
    ((deleteWorkout (deleteWorkout sampleWorkoutDB "w1").2 "w1").1 = false) ∧
    ((deleteMeal sampleMealDB "w1").1 = true ↔ "w1" ∈ sampleMealDB.map Prod.fst) ∧
    ((deleteMeal sampleMealDB "w1").2.map Prod.fst =
      (sampleMealDB.map Prod.fst).erase "w1") ∧
    ((deleteMeal (deleteMeal sampleMealDB "w1").2 "w1").1 = false) :=
  delete_true_iff_removed_and_idempotent sampleWorkoutDB sampleMealDB "w1"
    (by decide) (by decide)

/-- Claim C8 (counterexample): on the two-exercise workout with total
weight-volume 3801, the returned `averageWeightPerExercise` (1901, the
rounded value) is not the exact quotient 3801/2, so "divided exactly" is
false. -/
theorem avg_weight_not_exact_quotient :
    ¬ (((workoutStatsOf "w2" oddWeightWorkout AIOutcome.throws).averageWeightPerExercise : Rat) =
        (specTotalWeight oddWeightWorkout : Rat) /
          (oddWeightWorkout.exercises.length : Rat)) := by
  have h1 : (workoutStatsOf "w2" oddWeightWorkout AIOutcome.throws).averageWeightPerExercise
      = 1901 := by decide
  have h2 : specTotalWeight oddWeightWorkout = 3801 := by decide
  have h3 : oddWeightWorkout.exercises.length = 2 := by decide
  rw [h1, h2, h3]
  intro h
  norm_num at h

/-- Claim C8 (amended): for a workout with at least one exercise,
`averageWeightPerExercise` is the total weight-volume divided by the
exercise count and rounded to the nearest integer (`Math.round`, the floor
of the quotient plus one half); it is 0 when there are no exercises. -/
theorem avg_weight_is_rounded_quotient (wid : String) (w : Workout) (ai : AIOutcome) :
    (w.exercises ≠ [] →
      (workoutStatsOf wid w ai).averageWeightPerExercise =
        ⌊(specTotalWeight w : Rat) / (w.exercises.length : Rat) + 1 / 2⌋) ∧
    (w.exercises = [] → (workoutStatsOf wid w ai).averageWeightPerExercise = 0) := by
  constructor
  · intro hne
    have hlen : 0 < w.exercises.length := List.length_pos.mpr hne
    have hproj : (workoutStatsOf wid w ai).averageWeightPerExercise =
        if w.exercises.length > 0 then
          mathRoundDiv
            (w.exercises.foldl
              (fun total e => total + (e.weight.getD 0) * (e.sets : Int) * (e.reps : Int)) 0)
            w.exercises.length
        else 0 := rfl
    rw [hproj, if_pos hlen, totalWeight_foldl_eq, mathRoundDiv_eq_floor _ _ hlen]
  · intro he
    simp [workoutStatsOf, he]

/-- Witness for the amended claim C8: the nonempty case at the odd-total
workout and the empty case at the exercise-free workout. -/
theorem avg_weight_is_rounded_quotient_witness :
    ((workoutStatsOf "w2" oddWeightWorkout AIOutcome.throws).averageWeightPerExercise =
      ⌊(specTotalWeight oddWeightWorkout : Rat) /
          (oddWeightWorkout.exercises.length : Rat) + 1 / 2⌋) ∧
    ((workoutStatsOf "w0" emptyWorkout AIOutcome.throws).averageWeightPerExercise = 0) :=
  ⟨(avg_weight_is_rounded_quotient "w2" oddWeightWorkout AIOutcome.throws).1 (by decide),
   (avg_weight_is_rounded_quotient "w0" emptyWorkout AIOutcome.throws).2 rfl⟩

/-- Claim C9: the returned intensity is exactly one of three tiers — "High"
precisely when the total weight-volume exceeds 5000, "Medium" precisely
when it exceeds 2000 but not 5000, "Low" precisely when it is at most
2000. -/
theorem intensity_three_tiers (wid : String) (w : Workout) (ai : AIOutcome) :
    ((workoutStatsOf wid w ai).intensity = "High" ↔ 5000 < specTotalWeight w) ∧
    ((workoutStatsOf wid w ai).intensity = "Medium" ↔
      2000 < specTotalWeight w ∧ specTotalWeight w ≤ 5000) ∧
    ((workoutStatsOf wid w ai).intensity = "Low" ↔ specTotalWeight w ≤ 2000) := by
  have hproj : (workoutStatsOf wid w ai).intensity =
      if (w.exercises.foldl
            (fun total e => total + (e.weight.getD 0) * (e.sets : Int) * (e.reps : Int)) 0)
          > 5000 then "High"
      else if (w.exercises.foldl
            (fun total e => total + (e.weight.getD 0) * (e.sets : Int) * (e.reps : Int)) 0)
          > 2000 then "Medium"
      else "Low" := rfl
  rw [hproj, totalWeight_foldl_eq]
  refine ⟨?_, ?_, ?_⟩ <;> split_ifs with h1 h2 <;> (simp_all; try omega)

/-- Claim C10: a meal-list request dispatched through the route `/meal`,
which declares no path parameter, carries no `useId` request parameter, so
the handler always answers 401 and never returns the stored meals. -/
theorem meal_list_always_unauthorized (db : List (String × Meal))
    (params : List (String × String))
    (hparams : params.map Prod.fst = routeParamNames "/meal") :
    getAllMeals db params = (401, none) := by
  have hempty : routeParamNames "/meal" = [] := rfl
  rw [hempty] at hparams
  have hnil : params = [] := List.map_eq_nil_iff.mp hparams
  subst hnil
  rfl

/-- Witness for claim C10: a nonempty meal store, the empty parameter map
the route produces — the meals are not returned. -/
theorem meal_list_always_unauthorized_witness :
    getAllMeals sampleMealDB [] = (401, none) :=
  meal_list_always_unauthorized sampleMealDB [] rfl

end HealthTracker
